import Mathlib

/-!
Verification of the Deep Research to Kindle (DRK) pipeline orchestrator
(`drk.mjs`): the completion poller, the confirmation stage, model
resolution, the fallback resolver and the main stage sequence are embedded
as pure Lean functions over explicit feeds of remote observations, with
time passing in milliseconds only at the script's `sleep`/`waitForTimeout`
calls.
-/

namespace DRK

/-! ### String helpers (JS regex / string method semantics) -/

/-- Does `p` match the front of `l`? (char-list analogue of a JS
`startsWith` used to build substring search). -/
def leadMatch : List Char → List Char → Bool
  | [], _ => true
  | _ :: _, [] => false
  | a :: as, b :: bs => a == b && leadMatch as bs

/-- Does `p` occur contiguously inside `l`? (JS `String.includes`). -/
def hasSub (p : List Char) : List Char → Bool
  | [] => leadMatch p []
  | l@(_ :: rest) => leadMatch p l || hasSub p rest

/-- JS `String.prototype.includes` on whole strings (case sensitive). -/
def strIncludes (pat s : String) : Bool :=
  hasSub pat.data s.data

/-- Lower-casing a single character the way JS `toLowerCase` (and the `i`
regex flag) treats the characters that occur in the script's patterns:
ASCII letters plus the accented Portuguese vowels. -/
def jsCharLower (c : Char) : Char :=
  if c = 'Á' then 'á'
  else if c = 'É' then 'é'
  else if c = 'Í' then 'í'
  else if c = 'Ó' then 'ó'
  else if c = 'Ú' then 'ú'
  else c.toLower

/-- JS `String.prototype.toLowerCase` restricted to the alphabet the
script's patterns use. -/
def jsToLower (s : String) : String :=
  String.mk (s.data.map jsCharLower)

/-- The completion test `/Conclu[íi]do|Completed/i.test(status)` from
`pollForCompletion`: a case/diacritic-insensitive match for the "done"
synonyms. -/
def isDoneStatus (s : String) : Bool :=
  let l := (jsToLower s).data
  hasSub "concluído".data l || hasSub "concluido".data l ||
    hasSub "completed".data l

/-! ### Completion Poller (`pollForCompletion`)

Time is milliseconds since `startTime` (function entry).  The remote page
is a feed of observations indexed by that time: the trimmed inner text of
the `deep-research-entry-chip-content` element, the visibility of the
`Pesquisando|Researching|Analisando|Analyzing` activity indicator, and the
length of the trimmed inner text of the scrollable result container.  A
probe that throws is observationally the caught default (`""` / `0`), so
feeds cover that case as well. -/

structure StatusFeed where
  chip : Nat → String
  indicator : Nat → Bool
  reportLength : Nat → Nat

def POLL_INTERVAL_MS : Nat := 30000

def MAX_POLL_TIME_MS : Nat := 15 * 60000

/-- Outcome of one run of the poller, instrumented with the branch that
fired (`byStatus`: rule 1, the explicit done status; otherwise rule 2, the
content-length heuristic), the detection time and the return time.
`fuelOut` is an artefact of the fuel-indexed loops and is unreachable at
the fuel the entry points supply. -/
inductive PollOutcome where
  | completed (byStatus : Bool) (detect ret : Nat)
  | timedOut (ret : Nat)
  | fuelOut
  deriving DecidableEq, Repr

/-- Phase 1 of `pollForCompletion`: detect start.  Loops while
`t < phase1Deadline` (120 s): a non-empty chip status or a visible
activity indicator breaks with `researchStarted = true`; otherwise sleep
5 s.  Returns the time the loop exited and the `researchStarted` flag. -/
def phase1Loop (feed : StatusFeed) : Nat → Nat → Option (Nat × Bool)
  | 0, _ => none
  | fuel + 1, t =>
    if t < 120000 then
      if feed.chip t ≠ "" then some (t, true)
      else if feed.indicator t then some (t, true)
      else phase1Loop feed fuel (t + 5000)
    else some (t, false)

/-- Result of phase 1 from `t = 0` (25 units of fuel always suffice:
24 sleeps of 5 s reach the 120 s deadline). -/
def phase1Result (feed : StatusFeed) : Nat × Bool :=
  (phase1Loop feed 25 0).getD (0, false)

/-- The time at which the poller leaves phase 1 (enters `Started`). -/
def startedAt (feed : StatusFeed) : Nat :=
  (phase1Result feed).1

/-- Phase 2 of `pollForCompletion`: wait for completion.  Loops while
`t < MAX_POLL_TIME_MS`; each cycle reads the chip status, and in order:
a done status sleeps the 5 s settle delay and returns success; any other
non-empty status sleeps the 30 s poll interval; before `minWaitUntil`
(60 s after phase 1) sleeps 10 s; then the report length is read and a
length over 500 returns success immediately; otherwise sleep 30 s. -/
def phase2Loop (feed : StatusFeed) (minWaitUntil : Nat) :
    Nat → Nat → PollOutcome
  | 0, _ => .fuelOut
  | fuel + 1, t =>
    if t < MAX_POLL_TIME_MS then
      if isDoneStatus (feed.chip t) then .completed true t (t + 5000)
      else if feed.chip t ≠ "" then phase2Loop feed minWaitUntil fuel (t + 30000)
      else if t < minWaitUntil then
        phase2Loop feed minWaitUntil fuel (t + 10000)
      else if feed.reportLength t > 500 then .completed false t t
      else phase2Loop feed minWaitUntil fuel (t + 30000)
    else .timedOut t

/-- `pollForCompletion`: phase 1 then phase 2, with `minWaitUntil` set
60 s after entering `Started`.  200 units of fuel always suffice for
phase 2 (every cycle advances time by at least 10 s towards the 15 min
ceiling). -/
def pollForCompletion (feed : StatusFeed) : PollOutcome :=
  match phase1Loop feed 25 0 with
  | some (t1, _started) => phase2Loop feed (t1 + 60000) 200 t1
  | none => .fuelOut

/-- The boolean the JS function actually returns: `true` on completion,
`false` on timeout. -/
def pollForCompletionBool (feed : StatusFeed) : Bool :=
  match pollForCompletion feed with
  | .completed _ _ _ => true
  | _ => false

/-! ### Confirmation stage (`confirmResearchStart`)

The page is a feed of button observations indexed by elapsed time: the
visibility of each of the six labelled confirmation buttons (in the order
of `possibleButtons`), the visibility and inner text of the loose
`Iniciar`/`Start` button, and whether the probe batch at that cycle throws
(all throws inside the loop body are caught and turn into a plain 2 s
retry). -/

structure ConfirmFeed where
  buttonVisible : Nat → Nat → Bool
  looseVisible : Nat → Bool
  looseText : Nat → String
  throws : Nat → Bool

/-- First of the six `possibleButtons` patterns visible at time `t`. -/
def firstVisible (cf : ConfirmFeed) (t : Nat) : Option Nat :=
  (List.range 6).find? (fun i => cf.buttonVisible i t)

/-- Result of the confirmation stage.  There is no error constructor:
`confirmResearchStart` returns normally in every case (throws inside the
loop are caught, and running out the 60 s bound just logs). -/
inductive ConfirmResult where
  | clicked (button : Nat) (ret : Nat)
  | clickedLoose (ret : Nat)
  | noButton (ret : Nat)
  | fuelOut
  deriving DecidableEq, Repr

/-- The `while (Date.now() - startTime < maxWait)` loop of
`confirmResearchStart`: each cycle tries the six labelled buttons in
order, then the loose button (clicked only when its text includes
`investiga` or `pesquisa`); a click is followed by a 5 s wait and a normal
return; a throwing cycle is caught; otherwise wait 2 s and retry. -/
def confirmLoop (cf : ConfirmFeed) : Nat → Nat → ConfirmResult
  | 0, _ => .fuelOut
  | fuel + 1, t =>
    if t < 60000 then
      if cf.throws t then confirmLoop cf fuel (t + 2000)
      else
        match firstVisible cf t with
        | some i => .clicked i (t + 5000)
        | none =>
          if cf.looseVisible t &&
              (strIncludes "investiga" (cf.looseText t) ||
                strIncludes "pesquisa" (cf.looseText t)) then
            .clickedLoose (t + 5000)
          else confirmLoop cf fuel (t + 2000)
    else .noButton t

/-- `confirmResearchStart` from `t = 0`; 31 units of fuel always suffice
(30 retries of 2 s reach the 60 s bound). -/
def confirmResearchStart (cf : ConfirmFeed) : ConfirmResult :=
  confirmLoop cf 31 0

/-! ### Model resolution (`MODELS`, `DEFAULT_MODEL`, `resolveModel`) -/

structure ModelOption where
  key : String
  label : String
  geminiName : String
  testId : String
  deriving DecidableEq, Repr

def flashModel : ModelOption :=
  { key := "1", label := "⚡ Rápido (Flash)", geminiName := "Rápido",
    testId := "bard-mode-option-rápido" }

def thinkingModel : ModelOption :=
  { key := "2", label := "🧠 Raciocínio (Thinking)", geminiName := "Raciocínio",
    testId := "bard-mode-option-raciocínio" }

def proModel : ModelOption :=
  { key := "3", label := "🚀 Pro", geminiName := "Pro",
    testId := "bard-mode-option-pro" }

def MODELS : List ModelOption := [flashModel, thinkingModel, proModel]

/-- `MODELS[1]` — Raciocínio (Thinking) is the default. -/
def DEFAULT_MODEL : ModelOption := thinkingModel

/-- The `aliases` table of `resolveModel`, keyed by the lower-cased
argument. -/
def aliasLookup (s : String) : Option ModelOption :=
  if s = "1" ∨ s = "flash" ∨ s = "rapido" ∨ s = "rápido" then some flashModel
  else if s = "2" ∨ s = "thinking" ∨ s = "raciocinio" ∨ s = "raciocínio" then
    some thinkingModel
  else if s = "3" ∨ s = "pro" then some proModel
  else none

/-- `resolveModel(modelArg)`: a missing argument (JS falsy, including the
empty string) gives the default; otherwise the lower-cased argument is
looked up in the alias table, falling back to the default. -/
def resolveModel (modelArg : Option String) : ModelOption :=
  match modelArg with
  | none => DEFAULT_MODEL
  | some s =>
    if s = "" then DEFAULT_MODEL
    else
      match aliasLookup (jsToLower s) with
      | some m => m
      | none => DEFAULT_MODEL

/-! ### Fallback Resolver (`tryInOrder`) -/

/-- The error taxonomy of the resolver layer (spec §7): only the two kinds
a resolution can fail with. -/
inductive FallbackError where
  | noStrategySucceeded
  | resolutionExhausted
  deriving DecidableEq, Repr

/-- Modelled from the spec: the repository does not ship the Fallback
Resolver as a function under `src/` (spec §4.2 and §9 describe
`tryInOrder` as the abstraction of the ad-hoc selector cascades at each
call site, e.g. in `confirmResearchStart` and `downloadEpubFromDocs`).
Candidates are already-evaluated probe results (`none` is the null/empty
sentinel); the pair's second component counts how many candidates were
evaluated, making short-circuiting observable. -/
def tryInOrder {α : Type} : List (Option α) → Except FallbackError α × Nat
  | [] => (.error .noStrategySucceeded, 0)
  | some v :: _ => (.ok v, 1)
  | none :: rest =>
    let p := tryInOrder rest
    (p.1, p.2 + 1)

/-! ### Stage Orchestrator (`main`, full automation flow)

The try/catch/finally of `main`'s full flow (lines 669–710): the possibly
throwing stages are navigation, query submission, export to Docs, EPUB
download and delivery; `selectModel` and `enableDeepResearch` catch
internally and never throw; `confirmResearchStart` returns normally; the
boolean result of `pollForCompletion` is bound and discarded.  The `catch`
block logs and calls `process.exit(1)`, which terminates the process at
once — the `finally` block is skipped, so its `context.close()` executes
only when the try body completes without throwing. -/

inductive Stage where
  | navigate
  | selectModel
  | enableDeepResearch
  | submitQuery
  | confirm
  | poll
  | exportDocs
  | downloadEpub
  | sendKindle
  deriving DecidableEq, Repr

/-- The environment of one full-flow run: what each fallible stage would
do, the observation feeds driving the confirmation and polling stages, and
the `--no-kindle` flag. -/
structure MainEnv where
  navigateOk : Except String Unit
  submitOk : Except String Unit
  confirmFeed : ConfirmFeed
  pollFeed : StatusFeed
  exportOk : Except String Unit
  downloadOk : Except String String
  kindleOk : Except String Unit
  skipKindle : Bool

deriving instance DecidableEq for Except

/-- Outcome of one full-flow run: the stages whose functions were invoked,
in order; the process result (`error` is the catch branch, which exits
with status 1; `ok` is the success banner, exit status 0); and whether the
`finally` block's `context.close()` executed before the process
terminated (`process.exit(1)` inside the catch skips the `finally`, so
this is `false` on every error run). -/
structure RunOutcome where
  executed : List Stage
  result : Except String Unit
  contextClosed : Bool
  deriving DecidableEq, Repr

/-- The full automation flow of `main`.  Note that the results of
`confirmResearchStart` and `pollForCompletion` are computed and then
discarded, exactly as in the source. -/
def mainFullFlow (env : MainEnv) : RunOutcome :=
  match env.navigateOk with
  | .error e => ⟨[.navigate], .error e, false⟩
  | .ok _ =>
    match env.submitOk with
    | .error e =>
      ⟨[.navigate, .selectModel, .enableDeepResearch, .submitQuery],
        .error e, false⟩
    | .ok _ =>
      let _confirm := confirmResearchStart env.confirmFeed
      let _poll := pollForCompletion env.pollFeed
      match env.exportOk with
      | .error e =>
        ⟨[.navigate, .selectModel, .enableDeepResearch, .submitQuery,
            .confirm, .poll, .exportDocs], .error e, false⟩
      | .ok _ =>
        match env.downloadOk with
        | .error e =>
          ⟨[.navigate, .selectModel, .enableDeepResearch, .submitQuery,
              .confirm, .poll, .exportDocs, .downloadEpub], .error e, false⟩
        | .ok _path =>
          if env.skipKindle then
            ⟨[.navigate, .selectModel, .enableDeepResearch, .submitQuery,
                .confirm, .poll, .exportDocs, .downloadEpub], .ok (), true⟩
          else
            match env.kindleOk with
            | .error e =>
              ⟨[.navigate, .selectModel, .enableDeepResearch, .submitQuery,
                  .confirm, .poll, .exportDocs, .downloadEpub, .sendKindle],
                .error e, false⟩
            | .ok _ =>
              ⟨[.navigate, .selectModel, .enableDeepResearch, .submitQuery,
                  .confirm, .poll, .exportDocs, .downloadEpub, .sendKindle],
                .ok (), true⟩

/-! ### Concrete feeds and environments used as test inputs -/

/-- A page that never reports a status, never shows the activity
indicator, and never grows the result container. -/
def silentFeed : StatusFeed :=
  ⟨fun _ => "", fun _ => false, fun _ => 0⟩

/-- A page whose chip already reads `Concluído` from the first
observation on. -/
def doneFeed : StatusFeed :=
  ⟨fun _ => "Concluído", fun _ => false, fun _ => 0⟩

/-- A page with no chip status but a long result container (501
characters) from the start. -/
def lengthFeed : StatusFeed :=
  ⟨fun _ => "", fun _ => false, fun _ => 501⟩

/-- A page that is silent at the first probe and then reports the
in-progress status `Pesquisando` forever, never a done status, with an
empty result container. -/
def progressFeed : StatusFeed :=
  ⟨fun t => if t < 5000 then "" else "Pesquisando", fun _ => false,
    fun _ => 0⟩

/-- A confirmation page where no button ever becomes visible and the
probe batch at 4 s throws (and is caught). -/
def quietConfirm : ConfirmFeed :=
  ⟨fun _ _ => false, fun _ => false, fun _ => "", fun t => t == 4000⟩

/-- A run in which every fallible stage succeeds but the research page
stays silent, so polling times out. -/
def envTimeoutOk : MainEnv :=
  ⟨.ok (), .ok (), quietConfirm, silentFeed, .ok (), .ok "relatorio.epub",
    .ok (), false⟩

/-- A run in which the research completes but the export stage throws
(all three export-surface-detection signals fail, so
`exportToGoogleDocs` raises). -/
def envExportFails : MainEnv :=
  ⟨.ok (), .ok (), quietConfirm, doneFeed,
    .error "Google Docs não abriu após exportação", .ok "relatorio.epub",
    .ok (), false⟩

/-! ### Helper lemmas about the poller loops -/

theorem phase1Loop_isSome (feed : StatusFeed) :
    ∀ fuel t, 120000 ≤ t + 5000 * fuel → (phase1Loop feed (fuel + 1) t).isSome := by
  intro fuel
  induction fuel with
  | zero =>
    intro t h
    rw [phase1Loop]
    rw [if_neg (by omega)]
    simp
  | succ n ih =>
    intro t h
    rw [phase1Loop]
    by_cases h1 : t < 120000
    · rw [if_pos h1]
      by_cases h2 : feed.chip t ≠ ""
      · rw [if_pos h2]; simp
      · rw [if_neg h2]
        by_cases h3 : feed.indicator t
        · rw [if_pos h3]; simp
        · rw [if_neg h3]
          exact ih (t + 5000) (by omega)
    · rw [if_neg h1]; simp

theorem pollForCompletion_eq (feed : StatusFeed) :
    pollForCompletion feed =
      phase2Loop feed (startedAt feed + 60000) 200 (startedAt feed) := by
  have h : (phase1Loop feed 25 0).isSome :=
    phase1Loop_isSome feed 24 0 (by omega)
  unfold pollForCompletion startedAt phase1Result
  cases hp : phase1Loop feed 25 0 with
  | none => rw [hp] at h; simp at h
  | some p =>
    obtain ⟨t1, b⟩ := p
    simp [hp]

theorem phase2Loop_timedOut (feed : StatusFeed) (mw : Nat) :
    ∀ fuel t r, phase2Loop feed mw fuel t = .timedOut r →
      MAX_POLL_TIME_MS ≤ r := by
  intro fuel
  induction fuel with
  | zero => intro t r h; rw [phase2Loop] at h; cases h
  | succ n ih =>
    intro t r h
    rw [phase2Loop] at h
    by_cases h1 : t < MAX_POLL_TIME_MS
    · rw [if_pos h1] at h
      by_cases h2 : isDoneStatus (feed.chip t)
      · rw [if_pos h2] at h; cases h
      · rw [if_neg h2] at h
        by_cases h3 : feed.chip t ≠ ""
        · rw [if_pos h3] at h; exact ih _ _ h
        · rw [if_neg h3] at h
          by_cases h4 : t < mw
          · rw [if_pos h4] at h; exact ih _ _ h
          · rw [if_neg h4] at h
            by_cases h5 : feed.reportLength t > 500
            · rw [if_pos h5] at h; cases h
            · rw [if_neg h5] at h; exact ih _ _ h
    · rw [if_neg h1] at h
      cases h
      omega

theorem phase2Loop_completed_ret (feed : StatusFeed) (mw : Nat) :
    ∀ fuel t b dt r, phase2Loop feed mw fuel t = .completed b dt r →
      r = cond b (dt + 5000) dt := by
  intro fuel
  induction fuel with
  | zero => intro t b dt r h; rw [phase2Loop] at h; cases h
  | succ n ih =>
    intro t b dt r h
    rw [phase2Loop] at h
    by_cases h1 : t < MAX_POLL_TIME_MS
    · rw [if_pos h1] at h
      by_cases h2 : isDoneStatus (feed.chip t)
      · rw [if_pos h2] at h; cases h; rfl
      · rw [if_neg h2] at h
        by_cases h3 : feed.chip t ≠ ""
        · rw [if_pos h3] at h; exact ih _ _ _ _ h
        · rw [if_neg h3] at h
          by_cases h4 : t < mw
          · rw [if_pos h4] at h; exact ih _ _ _ _ h
          · rw [if_neg h4] at h
            by_cases h5 : feed.reportLength t > 500
            · rw [if_pos h5] at h; cases h; rfl
            · rw [if_neg h5] at h; exact ih _ _ _ _ h
    · rw [if_neg h1] at h; cases h

theorem phase2Loop_completed_len (feed : StatusFeed) (mw : Nat) :
    ∀ fuel t dt r, phase2Loop feed mw fuel t = .completed false dt r →
      mw ≤ dt ∧ feed.chip dt = "" ∧ 500 < feed.reportLength dt := by
  intro fuel
  induction fuel with
  | zero => intro t dt r h; rw [phase2Loop] at h; cases h
  | succ n ih =>
    intro t dt r h
    rw [phase2Loop] at h
    by_cases h1 : t < MAX_POLL_TIME_MS
    · rw [if_pos h1] at h
      by_cases h2 : isDoneStatus (feed.chip t)
      · rw [if_pos h2] at h; cases h
      · rw [if_neg h2] at h
        by_cases h3 : feed.chip t ≠ ""
        · rw [if_pos h3] at h; exact ih _ _ _ h
        · rw [if_neg h3] at h
          by_cases h4 : t < mw
          · rw [if_pos h4] at h; exact ih _ _ _ h
          · rw [if_neg h4] at h
            by_cases h5 : feed.reportLength t > 500
            · rw [if_pos h5] at h
              cases h
              refine ⟨by omega, ?_, h5⟩
              simpa using h3
            · rw [if_neg h5] at h; exact ih _ _ _ h
    · rw [if_neg h1] at h; cases h

theorem phase1Loop_silent (feed : StatusFeed)
    (h : ∀ t, t < 120000 → feed.chip t = "" ∧ feed.indicator t = false) :
    ∀ fuel t, t % 5000 = 0 → t ≤ 120000 → 120000 < t + 5000 * fuel →
      phase1Loop feed fuel t = some (120000, false) := by
  intro fuel
  induction fuel with
  | zero => intro t _ h2 h3; omega
  | succ n ih =>
    intro t h1 h2 h3
    rw [phase1Loop]
    by_cases hlt : t < 120000
    · rw [if_pos hlt]
      obtain ⟨hc, hi⟩ := h t hlt
      rw [if_neg (by simp [hc])]
      rw [if_neg (by simp [hi])]
      exact ih (t + 5000) (by omega) (by omega) (by omega)
    · rw [if_neg hlt]
      have ht : t = 120000 := by omega
      rw [ht]

theorem phase2Loop_silent (feed : StatusFeed)
    (h : ∀ t, feed.chip t = "" ∧ feed.reportLength t ≤ 500) :
    ∀ fuel t,
      ((120000 ≤ t ∧ t ≤ 180000 ∧ t % 10000 = 0) ∨
        (180000 ≤ t ∧ t ≤ 900000 ∧ (t - 180000) % 30000 = 0)) →
      900000 < t + 10000 * fuel →
      phase2Loop feed 180000 fuel t = .timedOut 900000 := by
  have hM : MAX_POLL_TIME_MS = 900000 := rfl
  intro fuel
  induction fuel with
  | zero => intro t hinv hfuel; omega
  | succ n ih =>
    intro t hinv hfuel
    rw [phase2Loop]
    obtain ⟨hc, hr⟩ := h t
    by_cases hmax : t < MAX_POLL_TIME_MS
    · rw [if_pos hmax]
      rw [if_neg (by rw [hc]; decide)]
      rw [if_neg (by simp [hc])]
      rw [hM] at hmax
      by_cases hlt : t < 180000
      · rw [if_pos hlt]
        exact ih (t + 10000) (by omega) (by omega)
      · rw [if_neg hlt]
        rw [if_neg (by omega)]
        exact ih (t + 30000) (by omega) (by omega)
    · rw [if_neg hmax]
      rw [hM] at hmax
      have ht : t = 900000 := by omega
      rw [ht]

theorem confirmLoop_silent (cf : ConfirmFeed)
    (hb : ∀ t i, cf.buttonVisible i t = false)
    (hl : ∀ t, cf.looseVisible t = false) :
    ∀ fuel t, t % 2000 = 0 → t ≤ 60000 → 60000 < t + 2000 * fuel →
      confirmLoop cf fuel t = .noButton 60000 := by
  intro fuel
  induction fuel with
  | zero => intro t _ h2 h3; omega
  | succ n ih =>
    intro t h1 h2 h3
    rw [confirmLoop]
    by_cases hlt : t < 60000
    · rw [if_pos hlt]
      by_cases hth : cf.throws t
      · rw [if_pos hth]
        exact ih (t + 2000) (by omega) (by omega) (by omega)
      · rw [if_neg hth]
        have hfv : firstVisible cf t = none := by
          unfold firstVisible
          refine List.find?_eq_none.mpr ?_
          intro i _
          simp [hb t i]
        rw [hfv]
        rw [if_neg (by simp [hl t])]
        exact ih (t + 2000) (by omega) (by omega) (by omega)
    · rw [if_neg hlt]
      have ht : t = 60000 := by omega
      rw [ht]

theorem aliasLookup_cases (s : String) (m : ModelOption)
    (h : aliasLookup s = some m) :
    m = flashModel ∨ m = thinkingModel ∨ m = proModel := by
  unfold aliasLookup at h
  split at h
  · cases h; exact Or.inl rfl
  · split at h
    · cases h; exact Or.inr (Or.inl rfl)
    · split at h
      · cases h; exact Or.inr (Or.inr rfl)
      · cases h

/-! ### Claim theorems -/

/-- C1 counterexample: a run whose research page stays silent, so that
`pollForCompletion` returns its timed-out result at the 15 min ceiling,
still executes the export, download and delivery stages and exits with
status zero — the orchestrator does not halt the pipeline on a poll
timeout. -/
theorem C1_counterexample :
    pollForCompletion envTimeoutOk.pollFeed = .timedOut MAX_POLL_TIME_MS ∧
    Stage.exportDocs ∈ (mainFullFlow envTimeoutOk).executed ∧
    Stage.sendKindle ∈ (mainFullFlow envTimeoutOk).executed ∧
    (mainFullFlow envTimeoutOk).result = .ok () := by decide

/-- C1 (amended): when polling times out, `pollForCompletion` returns
`false` after logging, but `main` discards that result: whenever the
earlier fallible stages succeeded, the export stage (and with it the rest
of the pipeline) still executes. -/
theorem C1_theorem (env : MainEnv) (r : Nat)
    (h : pollForCompletion env.pollFeed = .timedOut r) :
    pollForCompletionBool env.pollFeed = false ∧
      (env.navigateOk = .ok () → env.submitOk = .ok () →
        Stage.exportDocs ∈ (mainFullFlow env).executed) := by
  constructor
  · unfold pollForCompletionBool
    rw [h]
  · intro h1 h2
    obtain ⟨nav, sub, cfd, pfd, exp, dl, kd, sk⟩ := env
    dsimp only at h1 h2
    subst h1; subst h2
    cases exp <;> cases dl <;> cases sk <;> cases kd <;>
      simp [mainFullFlow]

/-- C1 witness: the amended statement at the silent-feed all-ok run. -/
theorem C1_witness :
    pollForCompletionBool envTimeoutOk.pollFeed = false ∧
    Stage.exportDocs ∈ (mainFullFlow envTimeoutOk).executed := by
  have h := C1_theorem envTimeoutOk MAX_POLL_TIME_MS (by decide)
  exact ⟨h.1, h.2 rfl rfl⟩

/-- C2: evaluation at the failing input.  On a run whose export stage
throws, the catch block's `process.exit(1)` terminates the process before
the `finally` block, so `context.close()` never executes — the cleanup
claimed to be guaranteed is skipped on every error run (while a fully
successful run does close the context). -/
theorem C2_theorem :
    (mainFullFlow envExportFails).result =
      .error "Google Docs não abriu após exportação" ∧
    (mainFullFlow envExportFails).contextClosed = false ∧
    (mainFullFlow envTimeoutOk).contextClosed = true := by decide

/-- C3 counterexample: with a chip that already reads `Concluído`, the
poller enters `Started` at t = 0 and reports success at t = 5 s — earlier
than 60 s after entering `Started`, so the explicit done-status rule is
not gated by the minimum dwell time. -/
theorem C3_counterexample :
    pollForCompletion doneFeed = .completed true 0 5000 ∧
    startedAt doneFeed = 0 ∧ 5000 < 60000 := by decide

/-- C3 (amended): only the content-length heuristic is gated by the
minimum dwell time — a completion detected by the content-length rule
occurs no earlier than 60 s after entering `Started` (the explicit
done-status rule may fire earlier). -/
theorem C3_theorem (feed : StatusFeed) (dt r : Nat)
    (h : pollForCompletion feed = .completed false dt r) :
    startedAt feed + 60000 ≤ dt := by
  rw [pollForCompletion_eq] at h
  exact (phase2Loop_completed_len feed _ 200 _ _ _ h).1

/-- C3 witness: the amended statement at the long-report feed, where the
content-length rule fires at 180 s = started-at (120 s) + dwell (60 s). -/
theorem C3_witness : startedAt lengthFeed + 60000 ≤ 180000 :=
  C3_theorem lengthFeed 180000 180000 (by decide)

/-- C4 counterexample: a completion detected by the content-length
heuristic returns at the detection time itself — no 5 s settle delay is
performed on that path. -/
theorem C4_counterexample :
    pollForCompletion lengthFeed = .completed false 180000 180000 ∧
    (180000 : Nat) ≠ 180000 + 5000 := by decide

/-- C4 (amended): the 5 s settle delay is performed only on the explicit
done-status path; a completion by the content-length heuristic returns
immediately at its detection time. -/
theorem C4_theorem (feed : StatusFeed) (b : Bool) (dt r : Nat)
    (h : pollForCompletion feed = .completed b dt r) :
    r = cond b (dt + 5000) dt := by
  rw [pollForCompletion_eq] at h
  exact phase2Loop_completed_ret feed _ 200 _ _ _ _ h

/-- C4 witness: the amended statement at the already-done feed, whose
status-rule success settles for 5 s. -/
theorem C4_witness : (5000 : Nat) = cond true (0 + 5000) 0 :=
  C4_theorem doneFeed true 0 5000 (by decide)

/-- C5: `tryInOrder` returns the first non-empty candidate's value having
evaluated exactly the candidates up to it, and on an all-empty list fails
with `noStrategySucceeded` and no other error kind. -/
theorem C5_theorem :
    (∀ (α : Type) (cs : List (Option α)) (K : Nat) (v : α),
        (∀ i, i < K → cs[i]? = some none) → cs[K]? = some (some v) →
        tryInOrder cs = (.ok v, K + 1)) ∧
    (∀ (α : Type) (cs : List (Option α)), (∀ x ∈ cs, x = none) →
        (tryInOrder cs).1 = .error .noStrategySucceeded) := by
  constructor
  · intro α cs K v
    induction cs generalizing K with
    | nil => intro _ hK; simp at hK
    | cons a tail ih =>
      intro hbefore hK
      cases K with
      | zero =>
        simp at hK
        subst hK
        rfl
      | succ k =>
        have ha : a = none := by
          have h0 := hbefore 0 (by omega)
          simpa using h0
        subst ha
        have h1 : ∀ i, i < k → tail[i]? = some none := by
          intro i hi
          have hs := hbefore (i + 1) (by omega)
          simpa using hs
        have h2 : tail[k]? = some (some v) := by simpa using hK
        have hrec := ih k h1 h2
        show ((tryInOrder tail).1, (tryInOrder tail).2 + 1) = _
        rw [hrec]
  · intro α cs
    induction cs with
    | nil => intro _; rfl
    | cons a tail ih =>
      intro h
      have ha : a = none := h a (by simp)
      subst ha
      exact ih (fun x hx => h x (List.mem_cons_of_mem _ hx))

/-- C5 witness: both halves at concrete lists — two empty candidates then
a hit (evaluating exactly three), and an all-empty list. -/
theorem C5_witness :
    tryInOrder [none, none, some 7, some 9] = (.ok 7, 3) ∧
    (tryInOrder ([none, none] : List (Option Nat))).1 =
      .error .noStrategySucceeded := by
  constructor
  · exact C5_theorem.1 Nat [none, none, some 7, some 9] 2 7
      (by intro i hi; interval_cases i <;> rfl) (by rfl)
  · exact C5_theorem.2 Nat [none, none] (by intro x hx; simpa using hx)

/-- C6 counterexample: a feed that never reports a done signal and never
grows the result container, but shows an in-progress status from t = 5 s
on, times out at 905 s — later than the 900 s hard ceiling, so the claim's
"at exactly the hard ceiling" fails for such feeds. -/
theorem C6_counterexample :
    pollForCompletion progressFeed = .timedOut 905000 ∧
    (905000 : Nat) ≠ MAX_POLL_TIME_MS := by decide

/-- C6 (amended): a timed-out poll never ends before the 15 min hard
ceiling, and for a feed that never reports anything at all (no status, no
activity indicator, result container at most 500 characters) it times out
at exactly the ceiling. -/
theorem C6_theorem :
    (∀ (feed : StatusFeed) (r : Nat),
        pollForCompletion feed = .timedOut r → MAX_POLL_TIME_MS ≤ r) ∧
    (∀ feed : StatusFeed,
        (∀ t, feed.chip t = "" ∧ feed.indicator t = false ∧
          feed.reportLength t ≤ 500) →
        pollForCompletion feed = .timedOut MAX_POLL_TIME_MS) := by
  constructor
  · intro feed r h
    rw [pollForCompletion_eq] at h
    exact phase2Loop_timedOut feed _ 200 _ _ h
  · intro feed h
    have h1 : phase1Loop feed 25 0 = some (120000, false) :=
      phase1Loop_silent feed (fun t ht => ⟨(h t).1, (h t).2.1⟩) 25 0
        (by omega) (by omega) (by omega)
    unfold pollForCompletion
    rw [h1]
    have h2 := phase2Loop_silent feed (fun t => ⟨(h t).1, (h t).2.2⟩) 200
      120000 (Or.inl (by omega)) (by omega)
    exact h2

/-- C6 witness: both halves — the in-progress feed times out past the
ceiling, and the fully silent feed at exactly the ceiling. -/
theorem C6_witness :
    MAX_POLL_TIME_MS ≤ 905000 ∧
    pollForCompletion silentFeed = .timedOut MAX_POLL_TIME_MS := by
  constructor
  · exact C6_theorem.1 progressFeed 905000 (by decide)
  · exact C6_theorem.2 silentFeed (fun t => ⟨rfl, rfl, Nat.zero_le 500⟩)

/-- C7: the content-length heuristic can only trigger completion in a
cycle where no explicit status signal is present — the chip text at the
detection time of a length-rule completion is empty. -/
theorem C7_theorem (feed : StatusFeed) (dt r : Nat)
    (h : pollForCompletion feed = .completed false dt r) :
    feed.chip dt = "" := by
  rw [pollForCompletion_eq] at h
  exact (phase2Loop_completed_len feed _ 200 _ _ _ h).2.1

/-- C7 witness: at the long-report feed the length rule fires at 180 s,
where the chip is indeed empty. -/
theorem C7_witness : lengthFeed.chip 180000 = "" :=
  C7_theorem lengthFeed 180000 180000 (by decide)

/-- C8: if the 2 min discovery window elapses with neither a non-empty
status nor an activity indicator, phase 1 still ends (at 120 s, with the
degraded-confidence flag `false`) and the poller proceeds to the
completion-polling loop rather than failing. -/
theorem C8_theorem (feed : StatusFeed)
    (h : ∀ t, t < 120000 → feed.chip t = "" ∧ feed.indicator t = false) :
    phase1Result feed = (120000, false) ∧
    pollForCompletion feed =
      phase2Loop feed (120000 + 60000) 200 120000 := by
  have h1 : phase1Loop feed 25 0 = some (120000, false) :=
    phase1Loop_silent feed h 25 0 (by omega) (by omega) (by omega)
  constructor
  · unfold phase1Result; rw [h1]; rfl
  · unfold pollForCompletion; rw [h1]

/-- C8 witness: the statement at the silent feed. -/
theorem C8_witness :
    phase1Result silentFeed = (120000, false) ∧
    pollForCompletion silentFeed =
      phase2Loop silentFeed (120000 + 60000) 200 120000 :=
  C8_theorem silentFeed (fun _ _ => ⟨rfl, rfl⟩)

/-- C9: if no confirmation button becomes visible within the 60 s bound,
`confirmResearchStart` returns normally (the `noButton` outcome — the
result type has no raising outcome, throws being caught inside the loop),
and in `main` every run that reaches the confirmation stage also reaches
the completion-polling stage. -/
theorem C9_theorem :
    (∀ cf : ConfirmFeed, (∀ t i, cf.buttonVisible i t = false) →
        (∀ t, cf.looseVisible t = false) →
        confirmResearchStart cf = .noButton 60000) ∧
    (∀ env : MainEnv, Stage.confirm ∈ (mainFullFlow env).executed →
        Stage.poll ∈ (mainFullFlow env).executed) := by
  constructor
  · intro cf hb hl
    exact confirmLoop_silent cf hb hl 31 0 (by omega) (by omega) (by omega)
  · intro env
    obtain ⟨nav, sub, cfd, pfd, exp, dl, kd, sk⟩ := env
    cases nav <;> cases sub <;> cases exp <;> cases dl <;> cases sk <;>
      cases kd <;> intro hmem <;> simp [mainFullFlow] at hmem ⊢

/-- C9 witness: a page with no buttons (and one caught throw at 4 s)
returns `noButton` after 60 s, and the all-ok run reaches the polling
stage. -/
theorem C9_witness :
    confirmResearchStart quietConfirm = .noButton 60000 ∧
    Stage.poll ∈ (mainFullFlow envTimeoutOk).executed := by
  constructor
  · exact C9_theorem.1 quietConfirm (fun _ _ => rfl) (fun _ => rfl)
  · exact C9_theorem.2 envTimeoutOk (by decide)

/-- C10: model resolution is total — every argument resolves to one of
the three fixed models — and silently defaulting: any string whose
lower-cased form is not in the alias table yields the default mid-tier
model (Raciocínio/Thinking) rather than an error. -/
theorem C10_theorem :
    (∀ a : Option String,
        resolveModel a = flashModel ∨ resolveModel a = thinkingModel ∨
          resolveModel a = proModel) ∧
    (∀ s : String, aliasLookup (jsToLower s) = none →
        resolveModel (some s) = thinkingModel) := by
  constructor
  · intro a
    cases a with
    | none => exact Or.inr (Or.inl rfl)
    | some s =>
      simp only [resolveModel]
      by_cases he : s = ""
      · rw [if_pos he]; exact Or.inr (Or.inl rfl)
      · rw [if_neg he]
        cases hal : aliasLookup (jsToLower s) with
        | none => exact Or.inr (Or.inl rfl)
        | some m =>
          rcases aliasLookup_cases _ _ hal with hm | hm | hm
          · exact Or.inl hm
          · exact Or.inr (Or.inl hm)
          · exact Or.inr (Or.inr hm)
  · intro s h
    simp only [resolveModel]
    by_cases he : s = ""
    · rw [if_pos he]; rfl
    · rw [if_neg he]; rw [h]; rfl

/-- C10 witness: the misspelling `flsh` is not in the alias table and
resolves to the default mid-tier model. -/
theorem C10_witness :
    aliasLookup (jsToLower "flsh") = none ∧
    resolveModel (some "flsh") = thinkingModel :=
  ⟨by decide, C10_theorem.2 "flsh" (by decide)⟩

end DRK
